import Mathlib

/-!
Verification of the change-detection and analysis pipeline of the
cosmetics-regulatory monitor (`api/cron/monitor.ts`).

The pipeline is shallowly embedded: external effects (the network fetch,
the snapshot/event store, the LLM analysis call) are modelled by explicit
inputs and an explicit store state threaded through the functions, while
the control flow of `handler`, `checkSource`, `saveSnapshot` and
`analyzeDiff` is translated statement by statement from the source.
The content fingerprint is the real SHA-256 hex digest of the UTF-8
encoding of the content, as produced by
`crypto.createHash('sha256').update(rawHtml).digest('hex')`.
-/

namespace Monitor

/-! ## SHA-256 (the Fingerprinter)

32-bit words are represented as natural numbers reduced modulo `2^32`.
-/

/-- Reduce to a 32-bit word. -/
def u32 (n : Nat) : Nat := n % 4294967296

/-- Right rotation of a 32-bit word by `n` bits. -/
def rotr (x n : Nat) : Nat := u32 ((x >>> n) ||| (x <<< (32 - n)))

/-- Bitwise complement within 32 bits. -/
def compl32 (x : Nat) : Nat := x ^^^ 4294967295

/-- The 64 SHA-256 round constants (FIPS 180-4), written in decimal. -/
def shaK : List Nat :=
  [1116352408, 1899447441, 3049323471, 3921009573, 961987163, 1508970993,
   2453635748, 2870763221, 3624381080, 310598401, 607225278, 1426881987,
   1925078388, 2162078206, 2614888103, 3248222580, 3835390401, 4022224774,
   264347078, 604807628, 770255983, 1249150122, 1555081692, 1996064986,
   2554220882, 2821834349, 2952996808, 3210313671, 3336571891, 3584528711,
   113926993, 338241895, 666307205, 773529912, 1294757372, 1396182291,
   1695183700, 1986661051, 2177026350, 2456956037, 2730485921, 2820302411,
   3259730800, 3345764771, 3516065817, 3600352804, 4094571909, 275423344,
   430227734, 506948616, 659060556, 883997877, 958139571, 1322822218,
   1537002063, 1747873779, 1955562222, 2024104815, 2227730452, 2361852424,
   2428436474, 2756734187, 3204031479, 3329325298]

/-- The eight SHA-256 working variables / hash state words. -/
structure H8 where
  a : Nat
  b : Nat
  c : Nat
  d : Nat
  e : Nat
  f : Nat
  g : Nat
  h : Nat
deriving Repr, DecidableEq

/-- Initial SHA-256 hash value (FIPS 180-4), written in decimal. -/
def shaInit : H8 :=
  ⟨1779033703, 3144134277, 1013904242, 2773480762,
   1359893119, 2600822924, 528734635, 1541459225⟩

/-- Big-endian byte decomposition of `v` into `n` bytes. -/
def bytesBE : Nat → Nat → List Nat
  | 0, _ => []
  | n + 1, v => bytesBE n (v / 256) ++ [v % 256]

/-- UTF-8 encoding of a single character (code point) as a byte list. -/
def utf8EncodeChar (c : Char) : List Nat :=
  let n := c.toNat
  if n < 128 then [n]
  else if n < 2048 then [192 + n / 64, 128 + n % 64]
  else if n < 65536 then [224 + n / 4096, 128 + (n / 64) % 64, 128 + n % 64]
  else [240 + n / 262144, 128 + (n / 4096) % 64, 128 + (n / 64) % 64, 128 + n % 64]

/-- UTF-8 bytes of a string. -/
def utf8Bytes (s : String) : List Nat := s.data.flatMap utf8EncodeChar

/-- SHA-256 message padding: append `0x80`, zeros, and the 64-bit big-endian
bit length, so the total length is a multiple of 64 bytes. -/
def padMessage (msg : List Nat) : List Nat :=
  let len := msg.length
  msg ++ [128] ++ List.replicate ((119 - len % 64) % 64) 0 ++ bytesBE 8 (len * 8)

/-- The 32-bit word at word index `i` of a 64-byte block (big-endian). -/
def wordAt (block : List Nat) (i : Nat) : Nat :=
  block.getD (4 * i) 0 * 16777216 + block.getD (4 * i + 1) 0 * 65536 +
    block.getD (4 * i + 2) 0 * 256 + block.getD (4 * i + 3) 0

/-- Message-schedule extension step producing word `i` (for `16 ≤ i`). -/
def extendW (w : Array Nat) (i : Nat) : Array Nat :=
  let w15 := w.getD (i - 15) 0
  let w2 := w.getD (i - 2) 0
  let s0 := (rotr w15 7) ^^^ (rotr w15 18) ^^^ (w15 >>> 3)
  let s1 := (rotr w2 17) ^^^ (rotr w2 19) ^^^ (w2 >>> 10)
  w.push (u32 (w.getD (i - 16) 0 + s0 + w.getD (i - 7) 0 + s1))

/-- The 64-word message schedule of one block. -/
def buildW (block : List Nat) : Array Nat :=
  (List.range 48).foldl (fun w j => extendW w (j + 16))
    ((List.range 16).map (wordAt block)).toArray

/-- One SHA-256 compression round. -/
def roundStep (w : Array Nat) (st : H8) (i : Nat) : H8 :=
  let s1 := (rotr st.e 6) ^^^ (rotr st.e 11) ^^^ (rotr st.e 25)
  let ch := (st.e &&& st.f) ^^^ (compl32 st.e &&& st.g)
  let temp1 := u32 (st.h + s1 + ch + shaK.getD i 0 + w.getD i 0)
  let s0 := (rotr st.a 2) ^^^ (rotr st.a 13) ^^^ (rotr st.a 22)
  let maj := (st.a &&& st.b) ^^^ (st.a &&& st.c) ^^^ (st.b &&& st.c)
  let temp2 := u32 (s0 + maj)
  ⟨u32 (temp1 + temp2), st.a, st.b, st.c, u32 (st.d + temp1), st.e, st.f, st.g⟩

/-- Compress one 64-byte block into the running hash value. -/
def compressBlock (hv : H8) (block : List Nat) : H8 :=
  let w := buildW block
  let st := (List.range 64).foldl (roundStep w) hv
  ⟨u32 (hv.a + st.a), u32 (hv.b + st.b), u32 (hv.c + st.c), u32 (hv.d + st.d),
   u32 (hv.e + st.e), u32 (hv.f + st.f), u32 (hv.g + st.g), u32 (hv.h + st.h)⟩

/-- Split a byte list into 64-byte chunks (fuel recursion on the length). -/
def chunks64Fuel : Nat → List Nat → List (List Nat)
  | 0, _ => []
  | _, [] => []
  | fuel + 1, x :: rest => ((x :: rest).take 64) :: chunks64Fuel fuel ((x :: rest).drop 64)

/-- Split a byte list into 64-byte chunks. -/
def chunks64 (l : List Nat) : List (List Nat) := chunks64Fuel l.length l

/-- The eight words of the final hash state, most significant first. -/
def hashWords (st : H8) : List Nat := [st.a, st.b, st.c, st.d, st.e, st.f, st.g, st.h]

/-- Lowercase hex character of a nibble. -/
def hexChar (n : Nat) : Char :=
  if n < 10 then Char.ofNat (48 + n) else Char.ofNat (87 + n)

/-- Eight lowercase hex characters of a 32-bit word, most significant first. -/
def wordHex (w : Nat) : List Char :=
  [hexChar (w >>> 28 % 16), hexChar (w >>> 24 % 16), hexChar (w >>> 20 % 16),
   hexChar (w >>> 16 % 16), hexChar (w >>> 12 % 16), hexChar (w >>> 8 % 16),
   hexChar (w >>> 4 % 16), hexChar (w % 16)]

/-- SHA-256 digest of a byte list, as its eight 32-bit words. -/
def sha256Words (msg : List Nat) : List Nat :=
  hashWords ((chunks64 (padMessage msg)).foldl compressBlock shaInit)

/-- The lowercase hex SHA-256 digest of the UTF-8 encoding of `s`, as
produced by the Node crypto call in `monitor.ts` line 86. -/
def sha256Hex (s : String) : String :=
  ⟨(sha256Words (utf8Bytes s)).flatMap wordHex⟩

/-! ## Data model

Rows of the `snapshots` and `change_events` tables, and the store state.
Row ids and the `fetched_at` timestamp are modelled by the insertion
index: the store is append-only and within-run inserts happen at strictly
increasing times, so "order by fetched_at desc limit 1" picks the last
appended row for the source.
-/

/-- A row of the `sources` table (the fields selected by the monitor). -/
structure Source where
  id : String
  name : String
  url : String
  source_type : String
deriving Repr, DecidableEq

/-- A row of the `snapshots` table. -/
structure SnapshotRow where
  id : Nat
  source_id : String
  raw_html : String
  raw_hash : String
  fetch_status : String
  error_message : Option String
  http_status : Option Nat
  fetched_at : Nat
deriving Repr, DecidableEq

/-- A row of the `change_events` table. -/
structure ChangeEventRow where
  id : Nat
  source_id : String
  snapshot_before_id : Option Nat
  snapshot_after_id : Nat
  change_summary : String
  tags : List String
  status : String
  effective_date : Option String
  needs_review : Bool
deriving Repr, DecidableEq

/-- The request the Analysis Invoker embeds into the LLM prompt
(`monitor.ts` lines 170-197): source metadata plus the truncated new
content, and the truncated previous content when the previous content is
non-empty (JS falsiness of the empty string at line 183). -/
structure AnalysisRequest where
  sourceName : String
  sourceUrl : String
  newContent : String
  previousContent : Option String
deriving Repr, DecidableEq

/-- The observable store state: the two tables written by the pipeline,
plus the trace of analysis-service invocations (one entry per OpenAI
call made by `analyzeDiff`). -/
structure Store where
  snapshots : List SnapshotRow
  change_events : List ChangeEventRow
  analysisCalls : List AnalysisRequest
deriving Repr, DecidableEq

/-! ## External-effect inputs -/

/-- Outcome of the `fetch(source.url, ...)` call: either a response with a
status code and a body text, or a thrown error (network failure etc.),
which propagates to the catch at `monitor.ts` line 144. -/
inductive FetchOutcome where
  | response (status : Nat) (body : String)
  | thrown (msg : String)
deriving Repr, DecidableEq

/-- `response.ok` of the Fetch API: status in the range 200-299. -/
def responseOk (status : Nat) : Bool := 200 ≤ status && status ≤ 299

/-- The JSON object parsed from the LLM response content
(`monitor.ts` line 216): each expected field is present or absent. -/
structure RawAnalysis where
  summary : Option String
  tags : Option (List String)
  status : Option String
  effectiveDate : Option String
  needsReview : Option Bool
deriving Repr, DecidableEq

/-- Outcome of the OpenAI chat-completion call plus `JSON.parse`:
`failure` when the call throws or the body is unparsable (both land in
the catch at `monitor.ts` line 225), `success` with the parsed object
otherwise. -/
inductive LLMOutcome where
  | failure
  | success (raw : RawAnalysis)
deriving Repr, DecidableEq

/-- Per-source external behaviour for one run: the fetch outcome, whether
the success-snapshot insert at `monitor.ts` line 98 succeeds (Supabase
reports failure in the result object, so on failure `newSnapshot` is
null), and the LLM outcome. -/
structure SourceEnv where
  fetch : FetchOutcome
  insertOk : Bool
  llm : LLMOutcome
deriving Repr, DecidableEq

/-! ## Analysis Invoker -/

/-- The normalized analysis result (`monitor.ts` lines 218-224 / 227-233). -/
structure AnalysisResult where
  summary : String
  tags : List String
  status : String
  effectiveDate : Option String
  needsReview : Bool
deriving Repr, DecidableEq

/-- JS `x || d` for a string-valued JSON field: absent, null and the empty
string are falsy. -/
def jsOrString (x : Option String) (d : String) : String :=
  match x with
  | none => d
  | some s => if s = "" then d else s

/-- JS `x || null` for a string-valued JSON field. -/
def jsOrNull (x : Option String) : Option String :=
  match x with
  | none => none
  | some s => if s = "" then none else some s

/-- JS `String.prototype.substring(0, n)`: the first `n` characters. -/
def jsSubstring (s : String) (n : Nat) : String := ⟨s.data.take n⟩

/-- The degraded analysis result returned from the catch block of
`analyzeDiff` (`monitor.ts` lines 227-233). -/
def degradedAnalysis : AnalysisResult :=
  { summary := "Change detected. LLM analysis failed - manual review required.",
    tags := ["analysis-error"],
    status := "unknown",
    effectiveDate := none,
    needsReview := true }

/-- Request construction of `analyzeDiff` (`monitor.ts` lines 170-197):
the prompt embeds `newHtml.substring(0, 15000)` and, when `oldHtml` is
non-empty, `oldHtml.substring(0, 10000)`. -/
def buildAnalysisRequest (source : Source) (oldHtml newHtml : String) : AnalysisRequest :=
  { sourceName := source.name,
    sourceUrl := source.url,
    newContent := jsSubstring newHtml 15000,
    previousContent := if oldHtml = "" then none else some (jsSubstring oldHtml 10000) }

/-- Normalization of the LLM outcome into an `AnalysisResult`
(`monitor.ts` lines 216-233): defensive defaults per field on success,
the fixed degraded result when the call throws or parsing throws. -/
def normalizeAnalysis (llm : LLMOutcome) : AnalysisResult :=
  match llm with
  | .failure => degradedAnalysis
  | .success raw =>
    { summary := jsOrString raw.summary "Change detected, analysis incomplete",
      tags := raw.tags.getD [],
      status := jsOrString raw.status "unknown",
      effectiveDate := jsOrNull raw.effectiveDate,
      needsReview := decide (raw.needsReview ≠ some false) }

/-- `analyzeDiff(source, oldHtml, newHtml)`: builds the bounded request,
makes the service call (outcome given by `llm`), and returns the
normalized result. The request is returned so the caller can record the
service invocation in the trace. -/
def analyzeDiff (source : Source) (oldHtml newHtml : String) (llm : LLMOutcome) :
    AnalysisRequest × AnalysisResult :=
  (buildAnalysisRequest source oldHtml newHtml, normalizeAnalysis llm)

/-! ## Snapshot Store Adapter -/

/-- The most recent snapshot for a source (`monitor.ts` lines 89-95:
`order by fetched_at desc, limit 1, single`). With the append-only store
and strictly increasing timestamps this is the last matching row; `none`
when the source has no snapshot (`.single()` reports an error, which the
code ignores, leaving `lastSnapshot` null). -/
def latestSnapshot (st : Store) (sourceId : String) : Option SnapshotRow :=
  (st.snapshots.filter (fun r => r.source_id = sourceId)).getLast?

/-- `saveSnapshot` (`monitor.ts` lines 151-167): append a snapshot row
with the given fields. The insert result is ignored by the code. -/
def saveSnapshot (st : Store) (sourceId : String) (html hash status : String)
    (errorMsg : Option String) (httpStatus : Option Nat) : Store :=
  { st with snapshots := st.snapshots ++
      [{ id := st.snapshots.length, source_id := sourceId, raw_html := html,
         raw_hash := hash, fetch_status := status, error_message := errorMsg,
         http_status := httpStatus, fetched_at := st.snapshots.length }] }

/-- The success-snapshot insert of `checkSource` (`monitor.ts` lines
98-108): on success return the inserted row (`.select().single()`); on a
store failure nothing is written and the returned row is null. -/
def insertSnapshotReturning (st : Store) (sourceId : String) (html hash : String)
    (httpStatus : Nat) (ok : Bool) : Option SnapshotRow × Store :=
  if ok then
    let row : SnapshotRow :=
      { id := st.snapshots.length, source_id := sourceId, raw_html := html,
        raw_hash := hash, fetch_status := "success", error_message := none,
        http_status := some httpStatus, fetched_at := st.snapshots.length }
    (some row, { st with snapshots := st.snapshots ++ [row] })
  else (none, st)

/-- Event Recorder (`monitor.ts` lines 125-136): append a change-event
row. The insert result is ignored by the code. -/
def insertChangeEvent (st : Store) (ev : ChangeEventRow) : Store :=
  { st with change_events := st.change_events ++ [ev] }

/-! ## Per-source pipeline -/

/-- One entry of the run report (`results` array): the JS object has a
`source` and `status` key always, and optionally `summary` (changed),
`httpStatus` (HTTP failure) or `error` (thrown failure). -/
structure CheckResult where
  source : String
  status : String
  summary : Option String
  httpStatus : Option Nat
  error : Option String
deriving Repr, DecidableEq

/-- The message of the TypeError raised at `monitor.ts` line 130 when the
snapshot insert failed and `newSnapshot` is null (`newSnapshot.id`).
The exact JS wording is environment-specific; only its presence matters. -/
def nullSnapshotError : String := "cannot read id of null"

/-- The Change Detector condition of `monitor.ts` line 111:
`lastSnapshot && lastSnapshot.raw_hash === rawHash`. -/
def hashMatches (lastSnapshot : Option SnapshotRow) (rawHash : String) : Bool :=
  match lastSnapshot with
  | some ls => ls.raw_hash == rawHash
  | none => false

/-- `checkSource(source)` (`monitor.ts` lines 71-149), with the external
effects drawn from `env`. Control flow, in source order: fetch; on a
non-ok response save an error snapshot and return an error entry; hash
the body; read the latest snapshot; insert the new success snapshot;
if a last snapshot exists with the same hash return `unchanged`;
otherwise run the LLM analysis (recorded in the call trace), then insert
the change event — evaluating `newSnapshot.id` first, which throws into
the catch block when the insert failed. The catch block (lines 144-148)
saves an error snapshot and returns an error entry. -/
def checkSource (env : SourceEnv) (source : Source) (st : Store) : CheckResult × Store :=
  match env.fetch with
  | .thrown msg =>
    ({ source := source.name, status := "error", summary := none,
       httpStatus := none, error := some msg },
     saveSnapshot st source.id "" "" "error" (some msg) none)
  | .response status body =>
    if responseOk status = false then
      ({ source := source.name, status := "error", summary := none,
         httpStatus := some status, error := none },
       saveSnapshot st source.id "" "" "error" (some ("HTTP " ++ toString status)) (some status))
    else
      let rawHash := sha256Hex body
      let lastSnapshot := latestSnapshot st source.id
      let ins := insertSnapshotReturning st source.id body rawHash status env.insertOk
      if hashMatches lastSnapshot rawHash then
        ({ source := source.name, status := "unchanged", summary := none,
           httpStatus := none, error := none }, ins.2)
      else
        let oldHtml := (lastSnapshot.map SnapshotRow.raw_html).getD ""
        let analysis := analyzeDiff source oldHtml body env.llm
        let st2 := { ins.2 with analysisCalls := ins.2.analysisCalls ++ [analysis.1] }
        match ins.1 with
        | none =>
          ({ source := source.name, status := "error", summary := none,
             httpStatus := none, error := some nullSnapshotError },
           saveSnapshot st2 source.id "" "" "error" (some nullSnapshotError) none)
        | some newSnapshot =>
          let st3 := insertChangeEvent st2
            { id := st2.change_events.length, source_id := source.id,
              snapshot_before_id := lastSnapshot.map SnapshotRow.id,
              snapshot_after_id := newSnapshot.id,
              change_summary := analysis.2.summary, tags := analysis.2.tags,
              status := analysis.2.status, effective_date := analysis.2.effectiveDate,
              needs_review := analysis.2.needsReview }
          ({ source := source.name, status := "changed", summary := some analysis.2.summary,
             httpStatus := none, error := none }, st3)

/-! ## Run Coordinator -/

/-- The loop of `handler` (`monitor.ts` lines 43-49): process each active
source in order, threading the store, and collect the per-source results. -/
def runSources (pairs : List (Source × SourceEnv)) (st : Store) : List CheckResult × Store :=
  match pairs with
  | [] => ([], st)
  | (s, e) :: rest =>
    let r := checkSource e s st
    let rs := runSources rest r.2
    (r.1 :: rs.1, rs.2)

/-- Outcome of the `sources` listing (`monitor.ts` lines 36-41): the rows
with `is_active = true` (each paired with its external behaviour for this
run), or a store error, which is thrown and caught at line 59. -/
inductive ListOutcome where
  | ok (pairs : List (Source × SourceEnv))
  | failure (msg : String)
deriving Repr, DecidableEq

/-- The HTTP response of `handler`: 401 Unauthorized, a
`{success: false, error}` failure report (status 500), or a
`{success: true, timestamp, results}` report (the timestamp, a wall-clock
reading, is not modelled). -/
inductive HandlerResponse where
  | unauthorized
  | failure (error : String)
  | success (results : List CheckResult)
deriving Repr, DecidableEq

/-- `handler(req)` (`monitor.ts` lines 25-69): compare the authorization
header against `Bearer ` + CRON_SECRET and reject with 401 before any
work; list the active sources (a listing error is thrown and yields the
failure report); otherwise run every source and return the success
report. -/
def handler (authHeader : Option String) (cronSecret : String)
    (listing : ListOutcome) (st : Store) : HandlerResponse × Store :=
  if authHeader ≠ some ("Bearer " ++ cronSecret) then (.unauthorized, st)
  else
    match listing with
    | .failure msg => (.failure msg, st)
    | .ok pairs =>
      let r := runSources pairs st
      (.success r.1, r.2)

/-! ## Concrete fixtures (used by the witness theorems) -/

/-- A concrete monitored source. -/
def srcW : Source := ⟨"src-1", "Source One", "https://example.test/a", "html"⟩

/-- A concrete prior success snapshot of `srcW` holding content `v1`. -/
def rowW : SnapshotRow :=
  ⟨0, "src-1", "v1", sha256Hex "v1", "success", none, some 200, 0⟩

/-- A concrete prior error snapshot of `srcW` (empty fingerprint). -/
def rowErrW : SnapshotRow :=
  ⟨0, "src-1", "", "", "error", some "HTTP 500", some 500, 0⟩

/-- The empty store. -/
def stEmptyW : Store := ⟨[], [], []⟩

/-- A store whose only snapshot is the prior success snapshot of `srcW`. -/
def stPriorW : Store := ⟨[rowW], [], []⟩

/-- A store whose only snapshot is the prior error snapshot of `srcW`. -/
def stErrW : Store := ⟨[rowErrW], [], []⟩

/-! ## Fingerprinter lemmas

The first three theorems check the model against the FIPS 180-4 example
digests, including a two-block message, so the embedded fingerprint is
the real SHA-256. -/

set_option maxRecDepth 1000000 in
theorem sha256Hex_vector_abc :
    sha256Hex "abc" =
      "ba7816bf8f01cfea414140de5dae2223b00361a396177a9cb410ff61f20015ad" := by rfl

set_option maxRecDepth 1000000 in
theorem sha256Hex_vector_nil :
    sha256Hex "" =
      "e3b0c44298fc1c149afbf4c8996fb92427ae41e4649b934ca495991b7852b855" := by rfl

set_option maxRecDepth 1000000 in
theorem sha256Hex_vector_two_blocks :
    sha256Hex "abcdbcdecdefdefgefghfghighijhijkijkljklmklmnlmnomnopnopq" =
      "248d6a61d20638b8e5c026930c3e6039a33ce45964ff2167f6ecedd419db06c1" := by rfl

theorem wordHex_length (w : Nat) : (wordHex w).length = 8 := rfl

theorem sha256Words_length (msg : List Nat) : (sha256Words msg).length = 8 := rfl

/-- A SHA-256 hex digest always has exactly 64 characters. -/
theorem sha256Hex_length (s : String) : (sha256Hex s).length = 64 := by
  show ((sha256Words (utf8Bytes s)).flatMap wordHex).length = 64
  have h : ∀ st : H8, ((hashWords st).flatMap wordHex).length = 64 := by
    intro st
    simp [hashWords, wordHex_length]
  simpa [sha256Words] using h ((chunks64 (padMessage (utf8Bytes s))).foldl compressBlock shaInit)

/-- A SHA-256 hex digest is never the empty string. -/
theorem sha256Hex_ne_empty (s : String) : sha256Hex s ≠ "" := by
  intro h
  have := sha256Hex_length s
  rw [h] at this
  simp [String.length] at this

/-! ## Branch equations of the per-source pipeline -/

/-- A thrown fetch is caught at the source boundary: error snapshot plus
error entry. -/
theorem checkSource_thrown (msg : String) (io : Bool) (llm : LLMOutcome)
    (s : Source) (st : Store) :
    checkSource ⟨.thrown msg, io, llm⟩ s st =
      ({ source := s.name, status := "error", summary := none,
         httpStatus := none, error := some msg },
       saveSnapshot st s.id "" "" "error" (some msg) none) := rfl

/-- A non-ok HTTP status: error snapshot carrying the status, error entry. -/
theorem checkSource_httpError (status : Nat) (body : String) (io : Bool)
    (llm : LLMOutcome) (s : Source) (st : Store) (hbad : responseOk status = false) :
    checkSource ⟨.response status body, io, llm⟩ s st =
      ({ source := s.name, status := "error", summary := none,
         httpStatus := some status, error := none },
       saveSnapshot st s.id "" "" "error" (some ("HTTP " ++ toString status)) (some status)) := by
  simp [checkSource, hbad]

/-- An ok fetch whose fingerprint matches the latest snapshot: the new
snapshot is still inserted (when the store accepts it) and the result is
`unchanged`. -/
theorem checkSource_unchanged (status : Nat) (body : String) (io : Bool)
    (llm : LLMOutcome) (s : Source) (st : Store)
    (hok : responseOk status = true)
    (heq : hashMatches (latestSnapshot st s.id) (sha256Hex body) = true) :
    checkSource ⟨.response status body, io, llm⟩ s st =
      ({ source := s.name, status := "unchanged", summary := none,
         httpStatus := none, error := none },
       (insertSnapshotReturning st s.id body (sha256Hex body) status io).2) := by
  simp [checkSource, hok, heq]

/-- An ok fetch classified as changed (no prior snapshot, or a differing
fingerprint), with the snapshot insert succeeding: one new success
snapshot, one analysis call, one change event. -/
theorem checkSource_changed (status : Nat) (body : String) (llm : LLMOutcome)
    (s : Source) (st : Store)
    (hok : responseOk status = true)
    (hne : hashMatches (latestSnapshot st s.id) (sha256Hex body) = false) :
    checkSource ⟨.response status body, true, llm⟩ s st =
      ({ source := s.name, status := "changed",
         summary := some (normalizeAnalysis llm).summary,
         httpStatus := none, error := none },
       { snapshots := st.snapshots ++
           [{ id := st.snapshots.length, source_id := s.id, raw_html := body,
              raw_hash := sha256Hex body, fetch_status := "success",
              error_message := none, http_status := some status,
              fetched_at := st.snapshots.length }],
         change_events := st.change_events ++
           [{ id := st.change_events.length, source_id := s.id,
              snapshot_before_id := (latestSnapshot st s.id).map SnapshotRow.id,
              snapshot_after_id := st.snapshots.length,
              change_summary := (normalizeAnalysis llm).summary,
              tags := (normalizeAnalysis llm).tags,
              status := (normalizeAnalysis llm).status,
              effective_date := (normalizeAnalysis llm).effectiveDate,
              needs_review := (normalizeAnalysis llm).needsReview }],
         analysisCalls := st.analysisCalls ++
           [buildAnalysisRequest s
             (((latestSnapshot st s.id).map SnapshotRow.raw_html).getD "") body] }) := by
  simp [checkSource, hok, hne, insertSnapshotReturning, insertChangeEvent, analyzeDiff]

/-- An ok fetch classified as changed while the snapshot insert failed:
the analysis call is still made, then `newSnapshot.id` throws; the catch
block records an error snapshot and the entry is an error. -/
theorem checkSource_changed_insertFail (status : Nat) (body : String)
    (llm : LLMOutcome) (s : Source) (st : Store)
    (hok : responseOk status = true)
    (hne : hashMatches (latestSnapshot st s.id) (sha256Hex body) = false) :
    checkSource ⟨.response status body, false, llm⟩ s st =
      ({ source := s.name, status := "error", summary := none,
         httpStatus := none, error := some nullSnapshotError },
       saveSnapshot
         { st with analysisCalls := st.analysisCalls ++
             [buildAnalysisRequest s
               (((latestSnapshot st s.id).map SnapshotRow.raw_html).getD "") body] }
         s.id "" "" "error" (some nullSnapshotError) none) := by
  simp [checkSource, hok, hne, insertSnapshotReturning, analyzeDiff]

/-- An ok fetch whose fingerprint matches the latest snapshot while the
snapshot insert failed: the Supabase error object is ignored, so the
entry is `unchanged` and nothing at all is persisted. -/
theorem checkSource_unchanged_insertFail (status : Nat) (body : String)
    (llm : LLMOutcome) (s : Source) (st : Store)
    (hok : responseOk status = true)
    (heq : hashMatches (latestSnapshot st s.id) (sha256Hex body) = true) :
    checkSource ⟨.response status body, false, llm⟩ s st =
      ({ source := s.name, status := "unchanged", summary := none,
         httpStatus := none, error := none }, st) := by
  simp [checkSource, hok, heq, insertSnapshotReturning]

/-- One run report entry per processed source. -/
theorem runSources_length (pairs : List (Source × SourceEnv)) (st : Store) :
    (runSources pairs st).1.length = pairs.length := by
  induction pairs generalizing st with
  | nil => rfl
  | cons p rest ih =>
    rcases p with ⟨s, e⟩
    simp [runSources, ih]

/-- Each run report entry is the `checkSource` result of the matching
source at some intermediate store (the store threaded through the
preceding sources). -/
theorem runSources_get (pairs : List (Source × SourceEnv)) (st : Store) (k : Nat)
    (hk : k < pairs.length) (hk2 : k < (runSources pairs st).1.length) :
    ∃ st2, (runSources pairs st).1.get ⟨k, hk2⟩ =
      (checkSource (pairs.get ⟨k, hk⟩).2 (pairs.get ⟨k, hk⟩).1 st2).1 := by
  induction pairs generalizing st k with
  | nil => exact absurd hk (by simp)
  | cons p rest ih =>
    rcases p with ⟨s, e⟩
    cases k with
    | zero => exact ⟨st, rfl⟩
    | succ k =>
      have hk' : k < rest.length := by simpa using hk
      have hk2' : k < (runSources rest (checkSource e s st).2).1.length := by
        simpa [runSources_length] using hk'
      obtain ⟨st2, h⟩ := ih (checkSource e s st).2 k hk' hk2'
      exact ⟨st2, by simpa [runSources] using h⟩

/-- Every run-report entry names its source. -/
theorem checkSource_source (env : SourceEnv) (s : Source) (st : Store) :
    (checkSource env s st).1.source = s.name := by
  rcases env with ⟨f, io, llm⟩
  cases f with
  | thrown msg => rfl
  | response status body =>
    by_cases hok : responseOk status = true
    · by_cases hm : hashMatches (latestSnapshot st s.id) (sha256Hex body) = true
      · rw [checkSource_unchanged status body io llm s st hok hm]
      · cases io
        · rw [checkSource_changed_insertFail status body llm s st hok
            (Bool.not_eq_true _ ▸ hm)]
        · rw [checkSource_changed status body llm s st hok
            (Bool.not_eq_true _ ▸ hm)]
    · rw [checkSource_httpError status body io llm s st (Bool.not_eq_true _ ▸ hok)]

/-! ## The claims -/

/-- C1: for a source whose fetch succeeds and that has a most recent
prior snapshot, fingerprint equality yields `unchanged` with zero new
ChangeEvents, and fingerprint inequality yields `changed` with exactly
one new ChangeEvent linking the prior snapshot to the newly inserted
one. -/
theorem claim_prior_fingerprint_decides_change
    (env : SourceEnv) (s : Source) (st : Store) (status : Nat) (body : String)
    (prior : SnapshotRow)
    (hf : env.fetch = .response status body)
    (hok : responseOk status = true)
    (hio : env.insertOk = true)
    (hlast : latestSnapshot st s.id = some prior) :
    (prior.raw_hash = sha256Hex body →
      (checkSource env s st).1.status = "unchanged" ∧
      (checkSource env s st).2.change_events = st.change_events) ∧
    (prior.raw_hash ≠ sha256Hex body →
      (checkSource env s st).1.status = "changed" ∧
      ∃ row ev, (checkSource env s st).2.snapshots = st.snapshots ++ [row] ∧
        (checkSource env s st).2.change_events = st.change_events ++ [ev] ∧
        ev.snapshot_after_id = row.id ∧
        ev.snapshot_before_id = some prior.id) := by
  rcases env with ⟨f, io, llm⟩
  cases hf
  cases hio
  constructor
  · intro heq
    rw [checkSource_unchanged status body true llm s st hok
      (by simp [hashMatches, hlast, heq])]
    simp [insertSnapshotReturning]
  · intro hne
    rw [checkSource_changed status body llm s st hok
      (by simp [hashMatches, hlast, hne])]
    exact ⟨rfl, _, _, rfl, rfl, rfl, by simp [hlast]⟩

/-- C2: for a source with no prior snapshot, a successful fetch is a
first observation: status `changed`, exactly one new ChangeEvent with
`beforeSnapshotId = none` and `afterSnapshotId` the new snapshot. -/
theorem claim_first_observation
    (env : SourceEnv) (s : Source) (st : Store) (status : Nat) (body : String)
    (hf : env.fetch = .response status body)
    (hok : responseOk status = true)
    (hio : env.insertOk = true)
    (hlast : latestSnapshot st s.id = none) :
    (checkSource env s st).1.status = "changed" ∧
    ∃ row ev, (checkSource env s st).2.snapshots = st.snapshots ++ [row] ∧
      (checkSource env s st).2.change_events = st.change_events ++ [ev] ∧
      ev.snapshot_before_id = none ∧
      ev.snapshot_after_id = row.id := by
  rcases env with ⟨f, io, llm⟩
  cases hf
  cases hio
  rw [checkSource_changed status body llm s st hok (by simp [hashMatches, hlast])]
  exact ⟨rfl, _, _, rfl, rfl, by simp [hlast], rfl⟩

/-- C3: when the analysis service call throws or its body is unparsable,
`analyzeDiff` returns the fixed degraded result, and the ChangeEvent for
the detected change is still recorded with exactly those values. -/
theorem claim_analysis_failure_degraded
    (env : SourceEnv) (s : Source) (st : Store) (status : Nat) (body : String)
    (hf : env.fetch = .response status body)
    (hok : responseOk status = true)
    (hio : env.insertOk = true)
    (hllm : env.llm = .failure)
    (hne : hashMatches (latestSnapshot st s.id) (sha256Hex body) = false) :
    normalizeAnalysis .failure = degradedAnalysis ∧
    degradedAnalysis.summary =
      "Change detected. LLM analysis failed - manual review required." ∧
    degradedAnalysis.summary ≠ "" ∧
    degradedAnalysis.tags = ["analysis-error"] ∧
    degradedAnalysis.status = "unknown" ∧
    degradedAnalysis.effectiveDate = none ∧
    degradedAnalysis.needsReview = true ∧
    ∃ ev, (checkSource env s st).2.change_events = st.change_events ++ [ev] ∧
      ev.change_summary = degradedAnalysis.summary ∧
      ev.tags = ["analysis-error"] ∧
      ev.status = "unknown" ∧
      ev.effective_date = none ∧
      ev.needs_review = true := by
  rcases env with ⟨f, io, llm⟩
  cases hf
  cases hio
  cases hllm
  refine ⟨rfl, rfl, by decide, rfl, rfl, rfl, rfl, ?_⟩
  rw [checkSource_changed status body .failure s st hok hne]
  exact ⟨_, rfl, rfl, rfl, rfl, rfl, rfl⟩

/-- C4: every fetch attempt inserts exactly one snapshot row (when the
store accepts the write): a success row on a success-status fetch, an
error row on a non-success status, and an error row when the fetch
throws. -/
theorem claim_one_snapshot_per_attempt
    (env : SourceEnv) (s : Source) (st : Store)
    (hio : env.insertOk = true) :
    ∃ row, (checkSource env s st).2.snapshots = st.snapshots ++ [row] ∧
      (∀ msg, env.fetch = .thrown msg → row.fetch_status = "error") ∧
      (∀ status body, env.fetch = .response status body →
        (responseOk status = true → row.fetch_status = "success") ∧
        (responseOk status = false → row.fetch_status = "error")) := by
  rcases env with ⟨f, io, llm⟩
  cases hio
  cases f with
  | thrown msg =>
    rw [checkSource_thrown msg true llm s st]
    refine ⟨_, rfl, fun _ _ => rfl, fun _ _ h => FetchOutcome.noConfusion h⟩
  | response status body =>
    by_cases hok : responseOk status = true
    · by_cases hm : hashMatches (latestSnapshot st s.id) (sha256Hex body) = true
      · rw [checkSource_unchanged status body true llm s st hok hm,
          insertSnapshotReturning]
        refine ⟨_, rfl, fun _ h => FetchOutcome.noConfusion h, ?_⟩
        intro status2 body2 h
        injection h with h1 h2
        subst h1
        exact ⟨fun _ => rfl, fun hbad => absurd hok (by simp [hbad])⟩
      · rw [checkSource_changed status body llm s st hok (Bool.not_eq_true _ ▸ hm)]
        refine ⟨_, rfl, fun _ h => FetchOutcome.noConfusion h, ?_⟩
        intro status2 body2 h
        injection h with h1 h2
        subst h1
        exact ⟨fun _ => rfl, fun hbad => absurd hok (by simp [hbad])⟩
    · have hbad : responseOk status = false := Bool.not_eq_true _ ▸ hok
      rw [checkSource_httpError status body true llm s st hbad]
      refine ⟨_, rfl, fun _ h => FetchOutcome.noConfusion h, ?_⟩
      intro status2 body2 h
      injection h with h1 h2
      subst h1
      exact ⟨fun hok2 => absurd hok2 hok, fun _ => rfl⟩

/-- C5: when the success-snapshot insert fails and the fetched content
matches the prior fingerprint, the failure IS silent, contradicting the
claim: the Supabase error object is ignored, the per-source entry is
`unchanged` (not `error`), and no snapshot is persisted for the attempt. -/
theorem claim_store_failure_silent_unchanged :
    checkSource ⟨.response 200 "v1", false, .failure⟩
      ⟨"src-1", "Source One", "https://example.test/a", "html"⟩
      ⟨[⟨0, "src-1", "v1", sha256Hex "v1", "success", none, some 200, 0⟩], [], []⟩ =
    ({ source := "Source One", status := "unchanged", summary := none,
       httpStatus := none, error := none },
     ⟨[⟨0, "src-1", "v1", sha256Hex "v1", "success", none, some 200, 0⟩], [], []⟩) := by
  exact checkSource_unchanged_insertFail 200 "v1" .failure
    ⟨"src-1", "Source One", "https://example.test/a", "html"⟩
    ⟨[⟨0, "src-1", "v1", sha256Hex "v1", "success", none, some 200, 0⟩], [], []⟩
    rfl (by simp [hashMatches, latestSnapshot])

/-- C6: with a valid credential, a thrown failure inside one source is
recorded as an `error` entry with the message, the remaining sources are
still processed, and the success report has exactly one entry per active
source, in processing order. -/
theorem claim_run_isolation (authHeader : Option String) (secret : String)
    (pairs : List (Source × SourceEnv)) (st : Store)
    (hauth : authHeader = some ("Bearer " ++ secret)) :
    ∃ rs st2, handler authHeader secret (.ok pairs) st = (.success rs, st2) ∧
      rs.length = pairs.length ∧
      ∀ k (hk : k < pairs.length) (hk2 : k < rs.length),
        (rs.get ⟨k, hk2⟩).source = ((pairs.get ⟨k, hk⟩).1).name ∧
        ∀ msg, ((pairs.get ⟨k, hk⟩).2).fetch = .thrown msg →
          (rs.get ⟨k, hk2⟩).status = "error" ∧
          (rs.get ⟨k, hk2⟩).error = some msg := by
  refine ⟨(runSources pairs st).1, (runSources pairs st).2, by simp [handler, hauth], ?_, ?_⟩
  · exact runSources_length pairs st
  · intro k hk hk2
    obtain ⟨st2, h⟩ := runSources_get pairs st k hk hk2
    constructor
    · rw [h, checkSource_source]
    · intro msg hmsg
      rcases hpair : pairs.get ⟨k, hk⟩ with ⟨s, e⟩
      rcases e with ⟨f, io, llm⟩
      rw [hpair] at h hmsg
      simp only at hmsg
      subst hmsg
      rw [h, checkSource_thrown]
      exact ⟨rfl, rfl⟩

/-- C7: a fetch with a non-success HTTP status inserts exactly one error
snapshot carrying that status, calls no analysis, creates no ChangeEvent,
and reports a per-source `error` entry with the HTTP status. -/
theorem claim_http_failure
    (env : SourceEnv) (s : Source) (st : Store) (status : Nat) (body : String)
    (hf : env.fetch = .response status body)
    (hbad : responseOk status = false) :
    ∃ row, (checkSource env s st).2.snapshots = st.snapshots ++ [row] ∧
      row.fetch_status = "error" ∧
      row.http_status = some status ∧
      row.error_message = some ("HTTP " ++ toString status) ∧
      row.raw_html = "" ∧ row.raw_hash = "" ∧
      (checkSource env s st).2.change_events = st.change_events ∧
      (checkSource env s st).2.analysisCalls = st.analysisCalls ∧
      (checkSource env s st).1 =
        { source := s.name, status := "error", summary := none,
          httpStatus := some status, error := none } := by
  rcases env with ⟨f, io, llm⟩
  cases hf
  rw [checkSource_httpError status body io llm s st hbad]
  exact ⟨_, rfl, rfl, rfl, rfl, rfl, rfl, rfl, rfl, rfl⟩

/-- C8: a request whose credential differs from `Bearer ` + CRON_SECRET
is rejected with 401 and performs no work: the response is independent of
the listing and the store is returned unchanged. -/
theorem claim_unauthorized_no_work (authHeader : Option String) (secret : String)
    (listing : ListOutcome) (st : Store)
    (hne : authHeader ≠ some ("Bearer " ++ secret)) :
    handler authHeader secret listing st = (.unauthorized, st) := by
  simp [handler, hne]

/-- C9: the pipeline only ever sends requests built by
`buildAnalysisRequest` from the prior content and the fetched body, and
every such request carries a prefix of the new content of at most 15000
characters and (when included) a prefix of the previous content of at
most 10000 characters. -/
theorem claim_analysis_request_bounds
    (env : SourceEnv) (s : Source) (st : Store) (status : Nat) (body : String)
    (hf : env.fetch = .response status body)
    (hok : responseOk status = true) :
    ((checkSource env s st).2.analysisCalls = st.analysisCalls ∨
     (checkSource env s st).2.analysisCalls = st.analysisCalls ++
       [buildAnalysisRequest s
         (((latestSnapshot st s.id).map SnapshotRow.raw_html).getD "") body]) ∧
    (∀ src oldHtml newHtml : String, ∀ src2 : Source,
      src2.name = src →
      ((∃ t, (buildAnalysisRequest src2 oldHtml newHtml).newContent.data ++ t = newHtml.data) ∧
       (buildAnalysisRequest src2 oldHtml newHtml).newContent.data.length ≤ 15000 ∧
       ∀ p, (buildAnalysisRequest src2 oldHtml newHtml).previousContent = some p →
         (∃ t, p.data ++ t = oldHtml.data) ∧ p.data.length ≤ 10000)) := by
  constructor
  · rcases env with ⟨f, io, llm⟩
    cases hf
    by_cases hm : hashMatches (latestSnapshot st s.id) (sha256Hex body) = true
    · rw [checkSource_unchanged status body io llm s st hok hm]
      left
      cases io <;> simp [insertSnapshotReturning]
    · cases io
      · rw [checkSource_changed_insertFail status body llm s st hok
          (Bool.not_eq_true _ ▸ hm)]
        right
        rfl
      · rw [checkSource_changed status body llm s st hok (Bool.not_eq_true _ ▸ hm)]
        right
        rfl
  · intro src oldHtml newHtml src2 _
    refine ⟨⟨newHtml.data.drop 15000, ?_⟩, ?_, ?_⟩
    · exact List.take_append_drop 15000 newHtml.data
    · simp [buildAnalysisRequest, jsSubstring]
    · intro p hp
      simp only [buildAnalysisRequest] at hp
      by_cases hold : oldHtml = ""
      · simp [hold] at hp
      · simp only [hold, if_false] at hp
        cases hp
        refine ⟨⟨oldHtml.data.drop 10000, List.take_append_drop 10000 oldHtml.data⟩, ?_⟩
        simp [jsSubstring]

/-- C10: when the most recent snapshot is an error snapshot (empty-string
fingerprint), any successful fetch is classified as changed — a SHA-256
hex digest is never the empty string — and the ChangeEvent links that
error snapshot as the before snapshot. -/
theorem claim_error_snapshot_forces_changed
    (env : SourceEnv) (s : Source) (st : Store) (status : Nat) (body : String)
    (ls : SnapshotRow)
    (hf : env.fetch = .response status body)
    (hok : responseOk status = true)
    (hio : env.insertOk = true)
    (hlast : latestSnapshot st s.id = some ls)
    (_hstatus : ls.fetch_status = "error")
    (hhash : ls.raw_hash = "") :
    (checkSource env s st).1.status = "changed" ∧
    ∃ row ev, (checkSource env s st).2.snapshots = st.snapshots ++ [row] ∧
      (checkSource env s st).2.change_events = st.change_events ++ [ev] ∧
      ev.snapshot_before_id = some ls.id ∧
      ev.snapshot_after_id = row.id := by
  rcases env with ⟨f, io, llm⟩
  cases hf
  cases hio
  have hne : ls.raw_hash ≠ sha256Hex body := by
    rw [hhash]
    exact fun h => sha256Hex_ne_empty body h.symm
  rw [checkSource_changed status body llm s st hok (by simp [hashMatches, hlast, hne])]
  exact ⟨rfl, _, _, rfl, rfl, by simp [hlast], rfl⟩

/-! ## Witnesses: each hypothesis-bearing claim theorem applied at a
concrete input -/

/-- Witness for C1: a prior snapshot of content `v1`, a fetch of `v2`. -/
theorem claim_prior_fingerprint_decides_change_witness :
    ({ fetch := .response 200 "v2", insertOk := true, llm := .failure } :
        SourceEnv).fetch = .response 200 "v2" ∧
    responseOk 200 = true ∧
    ({ fetch := .response 200 "v2", insertOk := true, llm := .failure } :
        SourceEnv).insertOk = true ∧
    latestSnapshot stPriorW srcW.id = some rowW ∧
    ((rowW.raw_hash = sha256Hex "v2" →
        (checkSource ⟨.response 200 "v2", true, .failure⟩ srcW stPriorW).1.status =
          "unchanged" ∧
        (checkSource ⟨.response 200 "v2", true, .failure⟩ srcW stPriorW).2.change_events =
          stPriorW.change_events) ∧
     (rowW.raw_hash ≠ sha256Hex "v2" →
        (checkSource ⟨.response 200 "v2", true, .failure⟩ srcW stPriorW).1.status =
          "changed" ∧
        ∃ row ev,
          (checkSource ⟨.response 200 "v2", true, .failure⟩ srcW stPriorW).2.snapshots =
            stPriorW.snapshots ++ [row] ∧
          (checkSource ⟨.response 200 "v2", true, .failure⟩ srcW stPriorW).2.change_events =
            stPriorW.change_events ++ [ev] ∧
          ev.snapshot_after_id = row.id ∧
          ev.snapshot_before_id = some rowW.id)) :=
  ⟨rfl, rfl, rfl, rfl,
   claim_prior_fingerprint_decides_change _ srcW stPriorW 200 "v2" rowW rfl rfl rfl rfl⟩

/-- Witness for C2: a first fetch into the empty store. -/
theorem claim_first_observation_witness :
    ({ fetch := .response 200 "v1", insertOk := true, llm := .failure } :
        SourceEnv).fetch = .response 200 "v1" ∧
    responseOk 200 = true ∧
    latestSnapshot stEmptyW srcW.id = none ∧
    ((checkSource ⟨.response 200 "v1", true, .failure⟩ srcW stEmptyW).1.status =
      "changed" ∧
    ∃ row ev,
      (checkSource ⟨.response 200 "v1", true, .failure⟩ srcW stEmptyW).2.snapshots =
        stEmptyW.snapshots ++ [row] ∧
      (checkSource ⟨.response 200 "v1", true, .failure⟩ srcW stEmptyW).2.change_events =
        stEmptyW.change_events ++ [ev] ∧
      ev.snapshot_before_id = none ∧
      ev.snapshot_after_id = row.id) :=
  ⟨rfl, rfl, rfl,
   claim_first_observation _ srcW stEmptyW 200 "v1" rfl rfl rfl rfl⟩

/-- Witness for C3: a first observation whose LLM call fails. -/
theorem claim_analysis_failure_degraded_witness :
    ({ fetch := .response 200 "v1", insertOk := true, llm := .failure } :
        SourceEnv).llm = .failure ∧
    hashMatches (latestSnapshot stEmptyW srcW.id) (sha256Hex "v1") = false ∧
    (normalizeAnalysis .failure = degradedAnalysis ∧
    degradedAnalysis.summary =
      "Change detected. LLM analysis failed - manual review required." ∧
    degradedAnalysis.summary ≠ "" ∧
    degradedAnalysis.tags = ["analysis-error"] ∧
    degradedAnalysis.status = "unknown" ∧
    degradedAnalysis.effectiveDate = none ∧
    degradedAnalysis.needsReview = true ∧
    ∃ ev,
      (checkSource ⟨.response 200 "v1", true, .failure⟩ srcW stEmptyW).2.change_events =
        stEmptyW.change_events ++ [ev] ∧
      ev.change_summary = degradedAnalysis.summary ∧
      ev.tags = ["analysis-error"] ∧
      ev.status = "unknown" ∧
      ev.effective_date = none ∧
      ev.needs_review = true) :=
  ⟨rfl, rfl,
   claim_analysis_failure_degraded _ srcW stEmptyW 200 "v1" rfl rfl rfl rfl rfl⟩

/-- Witness for C4: a thrown fetch still inserts exactly one (error)
snapshot. -/
theorem claim_one_snapshot_per_attempt_witness :
    ({ fetch := .thrown "boom", insertOk := true, llm := .failure } :
        SourceEnv).insertOk = true ∧
    ∃ row,
      (checkSource ⟨.thrown "boom", true, .failure⟩ srcW stEmptyW).2.snapshots =
        stEmptyW.snapshots ++ [row] ∧
      (∀ msg, ({ fetch := .thrown "boom", insertOk := true, llm := .failure } :
          SourceEnv).fetch = .thrown msg → row.fetch_status = "error") ∧
      (∀ status body, ({ fetch := .thrown "boom", insertOk := true, llm := .failure } :
          SourceEnv).fetch = .response status body →
        (responseOk status = true → row.fetch_status = "success") ∧
        (responseOk status = false → row.fetch_status = "error")) :=
  ⟨rfl, claim_one_snapshot_per_attempt _ srcW stEmptyW rfl⟩

/-- Witness for C6: two sources, the first of which throws; both get an
entry, the first an error entry with the message. -/
theorem claim_run_isolation_witness :
    (some "Bearer shh" : Option String) = some ("Bearer " ++ "shh") ∧
    (∃ rs st2,
      handler (some "Bearer shh") "shh"
        (.ok [(srcW, ⟨.thrown "boom", true, .failure⟩),
              (srcW, ⟨.response 200 "v1", true, .failure⟩)]) stEmptyW =
        (.success rs, st2) ∧
      rs.length = [(srcW, (⟨.thrown "boom", true, .failure⟩ : SourceEnv)),
                   (srcW, ⟨.response 200 "v1", true, .failure⟩)].length ∧
      ∀ k (hk : k < [(srcW, (⟨.thrown "boom", true, .failure⟩ : SourceEnv)),
                     (srcW, ⟨.response 200 "v1", true, .failure⟩)].length)
          (hk2 : k < rs.length),
        (rs.get ⟨k, hk2⟩).source =
          (([(srcW, (⟨.thrown "boom", true, .failure⟩ : SourceEnv)),
             (srcW, ⟨.response 200 "v1", true, .failure⟩)].get ⟨k, hk⟩).1).name ∧
        ∀ msg, (([(srcW, (⟨.thrown "boom", true, .failure⟩ : SourceEnv)),
                  (srcW, ⟨.response 200 "v1", true, .failure⟩)].get ⟨k, hk⟩).2).fetch =
            .thrown msg →
          (rs.get ⟨k, hk2⟩).status = "error" ∧
          (rs.get ⟨k, hk2⟩).error = some msg) :=
  ⟨rfl,
   claim_run_isolation (some "Bearer shh") "shh"
     [(srcW, ⟨.thrown "boom", true, .failure⟩),
      (srcW, ⟨.response 200 "v1", true, .failure⟩)] stEmptyW rfl⟩

/-- Witness for C7: a fetch returning HTTP 500. -/
theorem claim_http_failure_witness :
    ({ fetch := .response 500 "oops", insertOk := true, llm := .failure } :
        SourceEnv).fetch = .response 500 "oops" ∧
    responseOk 500 = false ∧
    ∃ row,
      (checkSource ⟨.response 500 "oops", true, .failure⟩ srcW stPriorW).2.snapshots =
        stPriorW.snapshots ++ [row] ∧
      row.fetch_status = "error" ∧
      row.http_status = some 500 ∧
      row.error_message = some ("HTTP " ++ toString 500) ∧
      row.raw_html = "" ∧ row.raw_hash = "" ∧
      (checkSource ⟨.response 500 "oops", true, .failure⟩ srcW stPriorW).2.change_events =
        stPriorW.change_events ∧
      (checkSource ⟨.response 500 "oops", true, .failure⟩ srcW stPriorW).2.analysisCalls =
        stPriorW.analysisCalls ∧
      (checkSource ⟨.response 500 "oops", true, .failure⟩ srcW stPriorW).1 =
        { source := srcW.name, status := "error", summary := none,
          httpStatus := some 500, error := none } :=
  ⟨rfl, rfl, claim_http_failure _ srcW stPriorW 500 "oops" rfl rfl⟩

/-- Witness for C8: a missing credential is rejected with no work. -/
theorem claim_unauthorized_no_work_witness :
    (none : Option String) ≠ some ("Bearer " ++ "shh") ∧
    handler none "shh"
        (.ok [(srcW, ⟨.response 200 "v1", true, .failure⟩)]) stPriorW =
      (.unauthorized, stPriorW) :=
  ⟨by simp,
   claim_unauthorized_no_work none "shh"
     (.ok [(srcW, ⟨.response 200 "v1", true, .failure⟩)]) stPriorW (by simp)⟩

/-- Witness for C9: a successful first fetch. -/
theorem claim_analysis_request_bounds_witness :
    ({ fetch := .response 200 "v1", insertOk := true, llm := .failure } :
        SourceEnv).fetch = .response 200 "v1" ∧
    responseOk 200 = true ∧
    (((checkSource ⟨.response 200 "v1", true, .failure⟩ srcW stEmptyW).2.analysisCalls =
        stEmptyW.analysisCalls ∨
      (checkSource ⟨.response 200 "v1", true, .failure⟩ srcW stEmptyW).2.analysisCalls =
        stEmptyW.analysisCalls ++
          [buildAnalysisRequest srcW
            (((latestSnapshot stEmptyW srcW.id).map SnapshotRow.raw_html).getD "") "v1"]) ∧
    (∀ src oldHtml newHtml : String, ∀ src2 : Source,
      src2.name = src →
      ((∃ t, (buildAnalysisRequest src2 oldHtml newHtml).newContent.data ++ t =
          newHtml.data) ∧
       (buildAnalysisRequest src2 oldHtml newHtml).newContent.data.length ≤ 15000 ∧
       ∀ p, (buildAnalysisRequest src2 oldHtml newHtml).previousContent = some p →
         (∃ t, p.data ++ t = oldHtml.data) ∧ p.data.length ≤ 10000))) :=
  ⟨rfl, rfl,
   claim_analysis_request_bounds _ srcW stEmptyW 200 "v1" rfl rfl⟩

/-- Witness for C10: the latest snapshot is an error snapshot and the
same content as the last success is fetched again. -/
theorem claim_error_snapshot_forces_changed_witness :
    ({ fetch := .response 200 "v1", insertOk := true, llm := .failure } :
        SourceEnv).fetch = .response 200 "v1" ∧
    responseOk 200 = true ∧
    latestSnapshot stErrW srcW.id = some rowErrW ∧
    rowErrW.fetch_status = "error" ∧
    rowErrW.raw_hash = "" ∧
    ((checkSource ⟨.response 200 "v1", true, .failure⟩ srcW stErrW).1.status =
      "changed" ∧
    ∃ row ev,
      (checkSource ⟨.response 200 "v1", true, .failure⟩ srcW stErrW).2.snapshots =
        stErrW.snapshots ++ [row] ∧
      (checkSource ⟨.response 200 "v1", true, .failure⟩ srcW stErrW).2.change_events =
        stErrW.change_events ++ [ev] ∧
      ev.snapshot_before_id = some rowErrW.id ∧
      ev.snapshot_after_id = row.id) :=
  ⟨rfl, rfl, rfl, rfl, rfl,
   claim_error_snapshot_forces_changed _ srcW stErrW 200 "v1" rowErrW rfl rfl rfl rfl rfl rfl⟩

end Monitor
